import Mathlib

/-!
Verification of the `tts-google` backend (Express server in `server/index.js`).

The server logic is embedded shallowly: the pure helpers
(`voiceTypeFromName`, `estimateCostUsd`, the MIME mapping) become Lean
functions; the stateful voice cache (`listVoicesCached`) becomes an explicit
state-passing function taking the current cache, the clock value and the
outcome of the (injected) remote fetch; the `/api/synthesize` handler becomes
a function from the raw request body, the cache/clock/fetch environment and
the remote synthesis outcome to a response value that also records which
remote request (if any) was forwarded.

JavaScript numbers are modelled as rationals (`ℚ`); all arithmetic appearing
in the claims is exact in binary64 as well, so the truth values agree.
-/

deriving instance DecidableEq for Except

namespace TtsGoogle

/-- Whether `pat` is a prefix of `s`, on character lists. -/
def startsWithList : List Char → List Char → Bool
  | [], _ => true
  | _ :: _, [] => false
  | p :: ps, c :: cs => p == c && startsWithList ps cs

/-- Whether `pat` occurs as a contiguous substring of `s`, on character lists. -/
def hasSubList (pat : List Char) : List Char → Bool
  | [] => startsWithList pat []
  | c :: cs => startsWithList pat (c :: cs) || hasSubList pat cs

/-- JavaScript `s.includes(pat)`: substring containment test. -/
def containsSub (s pat : String) : Bool :=
  hasSubList pat.data s.data

/-- Function `voiceTypeFromName` from `server/index.js`: ordered substring checks
deriving the pricing tier (a string key) from a voice name. -/
def voiceTypeFromName (voiceName : String) : String :=
  let n := voiceName
  if containsSub n "-Studio-" then "STUDIO"
  else if containsSub n "-Neural2-" then "NEURAL2"
  else if containsSub n "-Wavenet-" || containsSub n "-WaveNet-" then "WAVENET"
  else if containsSub n "-Standard-" then "STANDARD"
  else if containsSub n "Chirp3-HD" || containsSub n "Chirp-HD" || containsSub n "-Chirp-" then
    "CHIRP_HD"
  else if containsSub n "-Polyglot-" then "POLYGLOT"
  else "OTHER"

/-- The `PRICE_PER_1M_USD` object from `server/index.js`, as a partial map
from tier key to USD rate per one million characters (property access on a
JS object literal yields `undefined`, i.e. `none`, for absent keys). -/
def PRICE_PER_1M_USD (key : String) : Option ℚ :=
  if key = "STANDARD" then some 4
  else if key = "WAVENET" then some 4
  else if key = "NEURAL2" then some 16
  else if key = "STUDIO" then some 160
  else if key = "CHIRP_HD" then some 30
  else if key = "POLYGLOT" then some 16
  else if key = "OTHER" then some 16
  else none

/-- Function `estimateCostUsd` from `server/index.js`:
`(PRICE_PER_1M_USD[voiceType] ?? PRICE_PER_1M_USD.OTHER) / 1_000_000 * charCount`. -/
def estimateCostUsd (voiceType : String) (charCount : ℚ) : ℚ :=
  let per1m := (PRICE_PER_1M_USD voiceType).getD ((PRICE_PER_1M_USD "OTHER").getD 0)
  (per1m / 1000000) * charCount

/-- A raw voice record as returned by the remote `listVoices` call; every
field other than the name may be absent (`undefined`). -/
structure RawVoice where
  name : String
  languageCodes : Option (List String)
  ssmlGender : Option String
  naturalSampleRateHertz : Option ℕ
deriving Repr, DecidableEq

/-- A voice record as stored in the cache and served by `/api/voices`. -/
structure Voice where
  name : String
  languageCodes : List String
  ssmlGender : String
  naturalSampleRateHertz : Option ℕ
  voiceType : String
deriving Repr, DecidableEq

/-- The transformation applied to each raw voice in `listVoicesCached`. -/
def mapRawVoice (v : RawVoice) : Voice where
  name := v.name
  languageCodes := v.languageCodes.getD []
  ssmlGender := v.ssmlGender.getD "SSML_VOICE_GENDER_UNSPECIFIED"
  naturalSampleRateHertz := v.naturalSampleRateHertz
  voiceType := voiceTypeFromName v.name

/-- The mutable module-level `voicesCache` value: last fetch time in
milliseconds and the stored voice list. -/
structure VoicesCache where
  atMs : ℤ
  voices : List Voice
deriving Repr, DecidableEq

/-- Everything observable about one `listVoicesCached()` call: the value
returned (or the error thrown), the cache state after the call, and whether
the remote `listVoices` operation was invoked. -/
structure ListVoicesOutcome where
  result : Except String (List Voice)
  cache : VoicesCache
  fetched : Bool
deriving Repr

/-- Function `listVoicesCached` from `server/index.js`. The clock (`Date.now()`) and
the remote fetch are injected: `fetch` is the outcome the remote call would
produce if invoked (`.error` for a rejected promise, `.ok none` for a
response with `voices` undefined). `ttlSec` is `VOICES_CACHE_TTL_SEC`. -/
def listVoicesCached (ttlSec : ℤ) (cache : VoicesCache) (now : ℤ)
    (fetch : Except String (Option (List RawVoice))) : ListVoicesOutcome :=
  if cache.voices.length ≠ 0 ∧ now - cache.atMs < ttlSec * 1000 then
    { result := .ok cache.voices, cache := cache, fetched := false }
  else
    match fetch with
    | .error e => { result := .error e, cache := cache, fetched := true }
    | .ok raws =>
        let voices := (raws.getD []).map mapRawVoice
        { result := .ok voices, cache := { atMs := now, voices := voices }, fetched := true }

/-- The initial value of `voicesCache` at server start. -/
def initialVoicesCache : VoicesCache := { atMs := 0, voices := [] }

/-- Response of the `GET /api/voices` route, reduced to the fields the
claims are about: HTTP status, the served voice list (on success) and the
error/details body (on failure). -/
structure VoicesRouteResponse where
  status : ℕ
  voices : Option (List Voice)
  error : Option String
  details : Option String
deriving Repr, DecidableEq

/-- The `GET /api/voices` handler: serves the cached/fetched list, or turns
a thrown error into HTTP 500 with `{error, details}`. Also returns the
cache state after the call and whether a remote fetch happened. -/
def apiVoicesHandler (ttlSec : ℤ) (cache : VoicesCache) (now : ℤ)
    (fetch : Except String (Option (List RawVoice))) :
    VoicesRouteResponse × VoicesCache × Bool :=
  let o := listVoicesCached ttlSec cache now fetch
  match o.result with
  | .ok voices =>
      ({ status := 200, voices := some voices, error := none, details := none },
       o.cache, o.fetched)
  | .error e =>
      ({ status := 500, voices := none, error := some "Failed to list voices",
         details := some e }, o.cache, o.fetched)

/-- The two input modes accepted by `SynthesizeSchema`. -/
inductive InputType where
  | text
  | ssml
deriving Repr, DecidableEq

/-- The audio-encoding enumeration of `SynthesizeSchema`. -/
inductive AudioEncoding where
  | MP3
  | OGG_OPUS
  | LINEAR16
  | MULAW
deriving Repr, DecidableEq

/-- The raw JSON body of `POST /api/synthesize`; every field may be absent. -/
structure SynthesizeBody where
  inputType : Option String
  text : Option String
  voiceName : Option String
  languageCode : Option String
  audioEncoding : Option String
  speakingRate : Option ℚ
  pitch : Option ℚ
  volumeGainDb : Option ℚ
deriving Repr, DecidableEq

/-- The result of `SynthesizeSchema.parse` on a body that validates. -/
structure SynthesizeParsed where
  inputType : InputType
  text : String
  voiceName : String
  languageCode : Option String
  audioEncoding : AudioEncoding
  speakingRate : Option ℚ
  pitch : Option ℚ
  volumeGainDb : Option ℚ
deriving Repr, DecidableEq

/-- Validation `SynthesizeSchema.parse` from `server/index.js` (zod): enum fields with
defaults, `text` length in `[1, 4000]`, non-empty `voiceName`, and the
numeric ranges on the optional prosody fields. A validation failure throws;
the thrown message is abstracted to a fixed string per field. -/
def parseSynthesize (b : SynthesizeBody) : Except String SynthesizeParsed := do
  let inputType ← match b.inputType with
    | none => Except.ok InputType.text
    | some "text" => Except.ok InputType.text
    | some "ssml" => Except.ok InputType.ssml
    | some _ => Except.error "invalid inputType"
  let text ← match b.text with
    | none => Except.error "text required"
    | some t =>
        if 1 ≤ t.length ∧ t.length ≤ 4000 then Except.ok t
        else Except.error "text length out of range"
  let voiceName ← match b.voiceName with
    | none => Except.error "voiceName required"
    | some v => if 1 ≤ v.length then Except.ok v else Except.error "voiceName empty"
  let audioEncoding ← match b.audioEncoding with
    | none => Except.ok AudioEncoding.MP3
    | some "MP3" => Except.ok AudioEncoding.MP3
    | some "OGG_OPUS" => Except.ok AudioEncoding.OGG_OPUS
    | some "LINEAR16" => Except.ok AudioEncoding.LINEAR16
    | some "MULAW" => Except.ok AudioEncoding.MULAW
    | some _ => Except.error "invalid audioEncoding"
  let speakingRate ← match b.speakingRate with
    | none => Except.ok none
    | some r =>
        if 1/4 ≤ r ∧ r ≤ 4 then Except.ok (some r)
        else Except.error "speakingRate out of range"
  let pitch ← match b.pitch with
    | none => Except.ok none
    | some p =>
        if -20 ≤ p ∧ p ≤ 20 then Except.ok (some p)
        else Except.error "pitch out of range"
  let volumeGainDb ← match b.volumeGainDb with
    | none => Except.ok none
    | some v =>
        if -96 ≤ v ∧ v ≤ 16 then Except.ok (some v)
        else Except.error "volumeGainDb out of range"
  Except.ok { inputType, text, voiceName, languageCode := b.languageCode,
              audioEncoding, speakingRate, pitch, volumeGainDb }

/-- The request object forwarded to the remote `synthesizeSpeech` call:
`input` is either `{ssml: …}` or `{text: …}`, the voice selection with the
resolved language code, and the audio configuration with only the prosody
fields still present. -/
structure RemoteSynthRequest where
  inputIsSsml : Bool
  inputText : String
  voiceName : String
  languageCode : Option String
  audioEncoding : AudioEncoding
  speakingRate : Option ℚ
  pitch : Option ℚ
  volumeGainDb : Option ℚ
deriving Repr, DecidableEq

/-- The success body of `POST /api/synthesize`, reduced to the fields the
claims are about. -/
structure SuccessPayload where
  audioBase64 : String
  mimeType : String
  encoding : AudioEncoding
  voiceName : String
  charCount : ℕ
  inputType : InputType
  estimatedCostUsd : ℚ
  per1MCharactersUsd : ℚ
  warnings : List String
deriving Repr, DecidableEq

/-- A `POST /api/synthesize` response body: either an error object
`{error, details?}` or a success payload. -/
inductive SynthBody where
  | failure (error : String) (details : Option String)
  | success (payload : SuccessPayload)
deriving Repr, DecidableEq

/-- Everything observable about one `POST /api/synthesize` call: HTTP
status, body, the request forwarded to the remote synthesizer (`none` when
`synthesizeSpeech` was never invoked), and whether a remote voice-list
fetch happened. -/
structure SynthOutcome where
  status : ℕ
  body : SynthBody
  remoteRequest : Option RemoteSynthRequest
  voicesFetched : Bool
deriving Repr, DecidableEq

/-- The MIME-type mapping (chained conditional) in the synthesize handler. -/
def mimeTypeFor : AudioEncoding → String
  | AudioEncoding.MP3 => "audio/mpeg"
  | AudioEncoding.OGG_OPUS => "audio/ogg"
  | AudioEncoding.LINEAR16 => "audio/wav"
  | AudioEncoding.MULAW => "audio/basic"

/-- The `POST /api/synthesize` handler from `server/index.js`. The
environment is injected: `cache`/`now`/`voicesFetch` drive the embedded
`listVoicesCached` call, and `remote` is the outcome the remote
`synthesizeSpeech` call would produce if invoked (`.error` for a rejected
promise, `.ok` carrying the optional base64 audio content, where an absent
or empty buffer yields `none` / `some ""`). Any exception — zod validation,
voice-list fetch, or remote synthesis — lands in the single `catch`, which
answers HTTP 400 `{error: "Bad request", details}`. -/
def synthesizeHandler (ttlSec : ℤ) (cache : VoicesCache) (now : ℤ)
    (voicesFetch : Except String (Option (List RawVoice)))
    (body : SynthesizeBody)
    (remote : Except String (Option String)) : SynthOutcome :=
  match parseSynthesize body with
  | .error msg =>
      { status := 400, body := .failure "Bad request" (some msg),
        remoteRequest := none, voicesFetched := false }
  | .ok parsed =>
    let lv := listVoicesCached ttlSec cache now voicesFetch
    match lv.result with
    | .error e =>
        { status := 400, body := .failure "Bad request" (some e),
          remoteRequest := none, voicesFetched := lv.fetched }
    | .ok voices =>
      match voices.find? (fun v => v.name == parsed.voiceName) with
      | none =>
          { status := 400,
            body := .failure
              "Unknown voiceName. Fetch /api/voices and pick one from the list." none,
            remoteRequest := none, voicesFetched := lv.fetched }
      | some voice =>
        let voiceType := voice.voiceType
        let downgraded :=
          if voiceType = "CHIRP_HD" then
            let (it, w1) :=
              if parsed.inputType = InputType.ssml then
                (InputType.text,
                 ["Chirp 3: HD voices do not support SSML. Falling back to plain text."])
              else (parsed.inputType, [])
            let (sr, w2) :=
              if parsed.speakingRate.isSome then
                (none, w1 ++ ["Chirp 3: HD voices do not support speakingRate. Ignoring."])
              else (parsed.speakingRate, w1)
            let (p, w3) :=
              if parsed.pitch.isSome then
                (none, w2 ++ ["Chirp 3: HD voices do not support pitch. Ignoring."])
              else (parsed.pitch, w2)
            (it, sr, p, w3)
          else (parsed.inputType, parsed.speakingRate, parsed.pitch, [])
        let inputType := downgraded.1
        let speakingRate := downgraded.2.1
        let pitch := downgraded.2.2.1
        let warnings := downgraded.2.2.2
        let charCount := parsed.text.length
        let request : RemoteSynthRequest :=
          { inputIsSsml := inputType = InputType.ssml
            inputText := parsed.text
            voiceName := parsed.voiceName
            languageCode :=
              match parsed.languageCode with
              | some s => if s = "" then voice.languageCodes.head? else some s
              | none => voice.languageCodes.head?
            audioEncoding := parsed.audioEncoding
            speakingRate := speakingRate
            pitch := pitch
            volumeGainDb := parsed.volumeGainDb }
        match remote with
        | .error e =>
            { status := 400, body := .failure "Bad request" (some e),
              remoteRequest := some request, voicesFetched := lv.fetched }
        | .ok audioOpt =>
          let audioContent := audioOpt.getD ""
          if audioContent = "" then
            { status := 500,
              body := .failure "No audioContent returned by Google TTS." none,
              remoteRequest := some request, voicesFetched := lv.fetched }
          else
            { status := 200,
              body := .success
                { audioBase64 := audioContent
                  mimeType := mimeTypeFor parsed.audioEncoding
                  encoding := parsed.audioEncoding
                  voiceName := voice.name
                  charCount := charCount
                  inputType := inputType
                  estimatedCostUsd := estimateCostUsd voiceType charCount
                  per1MCharactersUsd :=
                    (PRICE_PER_1M_USD voiceType).getD ((PRICE_PER_1M_USD "OTHER").getD 0)
                  warnings := warnings }
              remoteRequest := some request, voicesFetched := lv.fetched }

/-- The spec's documented pattern table, in the spec's order: Studio, then
Neural, then Wavenet, then Standard, then Chirp, then Polyglot, each tier
with its substring patterns. Written from the spec's words, to be compared
with `voiceTypeFromName` (which is written from the source). -/
def tierPatternTable : List (List String × String) :=
  [(["-Studio-"], "STUDIO"),
   (["-Neural2-"], "NEURAL2"),
   (["-Wavenet-", "-WaveNet-"], "WAVENET"),
   (["-Standard-"], "STANDARD"),
   (["Chirp3-HD", "Chirp-HD", "-Chirp-"], "CHIRP_HD"),
   (["-Polyglot-"], "POLYGLOT")]

/-- Written from the spec's words: ordered first-match classification over a
pattern table, defaulting to the generic OTHER tier when nothing matches. -/
def orderedTierMatchSpec (n : String) : List (List String × String) → String
  | [] => "OTHER"
  | (pats, tier) :: rest =>
      if pats.any (fun p => containsSub n p) then tier
      else orderedTierMatchSpec n rest

/-- A sample Standard-tier voice record used in concrete scenarios. -/
def stdVoice : Voice :=
  { name := "en-US-Standard-A", languageCodes := ["en-US"], ssmlGender := "FEMALE",
    naturalSampleRateHertz := some 24000, voiceType := "STANDARD" }

/-- A sample Chirp 3: HD voice record used in concrete scenarios. -/
def chirpVoice : Voice :=
  { name := "en-US-Chirp3-HD-Achernar", languageCodes := ["en-US"], ssmlGender := "FEMALE",
    naturalSampleRateHertz := some 24000, voiceType := "CHIRP_HD" }

/-- A sample WaveNet voice record used in concrete scenarios. -/
def wavenetVoice : Voice :=
  { name := "en-US-Wavenet-D", languageCodes := ["en-US"], ssmlGender := "MALE",
    naturalSampleRateHertz := some 24000, voiceType := "WAVENET" }

/-- The warnings carried by a synthesize response body (empty for errors). -/
def SynthBody.warningsOf : SynthBody → List String
  | .failure _ _ => []
  | .success p => p.warnings

/-- Whether a synthesize response body is a success payload. -/
def SynthBody.isSuccess : SynthBody → Bool
  | .failure _ _ => false
  | .success _ => true

/-- The request body of the spec's end-to-end scenario. -/
def helloBody : SynthesizeBody :=
  { inputType := some "text", text := some "Hello", voiceName := some "en-US-Standard-A",
    languageCode := none, audioEncoding := some "MP3", speakingRate := none,
    pitch := none, volumeGainDb := none }

/-- A markup (ssml) request body against a WaveNet voice. -/
def markupBody : SynthesizeBody :=
  { inputType := some "ssml", text := some "<speak>Hi</speak>",
    voiceName := some "en-US-Wavenet-D", languageCode := none,
    audioEncoding := some "MP3", speakingRate := none, pitch := none,
    volumeGainDb := none }

/-- A markup (ssml) request body with prosody overrides against a
Chirp 3: HD voice. -/
def chirpBody : SynthesizeBody :=
  { inputType := some "ssml", text := some "<speak>Hello</speak>",
    voiceName := some "en-US-Chirp3-HD-Achernar", languageCode := none,
    audioEncoding := some "MP3", speakingRate := some 1, pitch := some 2,
    volumeGainDb := none }

/-- A request body naming a voice absent from the sample directory. -/
def unknownVoiceBody : SynthesizeBody :=
  { inputType := some "text", text := some "Hello", voiceName := some "en-US-Neural2-A",
    languageCode := none, audioEncoding := some "MP3", speakingRate := none,
    pitch := none, volumeGainDb := none }

/-- The validated form of `helloBody`. -/
def parsedHello : SynthesizeParsed :=
  { inputType := InputType.text, text := "Hello", voiceName := "en-US-Standard-A",
    languageCode := none, audioEncoding := AudioEncoding.MP3, speakingRate := none,
    pitch := none, volumeGainDb := none }

/-- The validated form of `markupBody`. -/
def parsedMarkup : SynthesizeParsed :=
  { inputType := InputType.ssml, text := "<speak>Hi</speak>",
    voiceName := "en-US-Wavenet-D", languageCode := none,
    audioEncoding := AudioEncoding.MP3, speakingRate := none, pitch := none,
    volumeGainDb := none }

/-- The validated form of `chirpBody`. -/
def parsedChirp : SynthesizeParsed :=
  { inputType := InputType.ssml, text := "<speak>Hello</speak>",
    voiceName := "en-US-Chirp3-HD-Achernar", languageCode := none,
    audioEncoding := AudioEncoding.MP3, speakingRate := some 1, pitch := some 2,
    volumeGainDb := none }

/-- C5: tier classification checks the Studio pattern, then Neural, then
Wavenet, then Standard, then Chirp, then Polyglot, in that order, returning
the tier of the first matching pattern (refinement against the spec's
ordered table); every identifier containing `-Studio-` yields STUDIO, and
an identifier matching no documented pattern yields OTHER. -/
theorem c5_ordered_tier_classification (n : String) :
    voiceTypeFromName n = orderedTierMatchSpec n tierPatternTable ∧
    (containsSub n "-Studio-" = true → voiceTypeFromName n = "STUDIO") ∧
    ((∀ pt ∈ tierPatternTable, ∀ p ∈ pt.1, containsSub n p = false) →
      voiceTypeFromName n = "OTHER") := by
  refine ⟨?_, ?_, ?_⟩
  · simp only [voiceTypeFromName, orderedTierMatchSpec, tierPatternTable,
      List.any_cons, List.any_nil, Bool.or_false, Bool.or_assoc]
  · intro h
    simp [voiceTypeFromName, h]
  · intro h
    have h1 := h (["-Studio-"], "STUDIO") (by simp [tierPatternTable]) "-Studio-" (by simp)
    have h2 := h (["-Neural2-"], "NEURAL2") (by simp [tierPatternTable]) "-Neural2-" (by simp)
    have h3 := h (["-Wavenet-", "-WaveNet-"], "WAVENET") (by simp [tierPatternTable])
      "-Wavenet-" (by simp)
    have h4 := h (["-Wavenet-", "-WaveNet-"], "WAVENET") (by simp [tierPatternTable])
      "-WaveNet-" (by simp)
    have h5 := h (["-Standard-"], "STANDARD") (by simp [tierPatternTable]) "-Standard-" (by simp)
    have h6 := h (["Chirp3-HD", "Chirp-HD", "-Chirp-"], "CHIRP_HD") (by simp [tierPatternTable])
      "Chirp3-HD" (by simp)
    have h7 := h (["Chirp3-HD", "Chirp-HD", "-Chirp-"], "CHIRP_HD") (by simp [tierPatternTable])
      "Chirp-HD" (by simp)
    have h8 := h (["Chirp3-HD", "Chirp-HD", "-Chirp-"], "CHIRP_HD") (by simp [tierPatternTable])
      "-Chirp-" (by simp)
    have h9 := h (["-Polyglot-"], "POLYGLOT") (by simp [tierPatternTable]) "-Polyglot-" (by simp)
    simp [voiceTypeFromName, h1, h2, h3, h4, h5, h6, h7, h8, h9]

/-- Witness for C5 at concrete identifiers. -/
theorem c5_witness :
    voiceTypeFromName "en-US-Studio-O" = "STUDIO" ∧
    voiceTypeFromName "en-US-Journey-F" = "OTHER" :=
  ⟨(c5_ordered_tier_classification "en-US-Studio-O").2.1 (by decide),
   (c5_ordered_tier_classification "en-US-Journey-F").2.2 (by decide)⟩

/-- C6: for every tier in the pricing table, `estimateCostUsd tier 1000000`
equals that tier's configured rate per million characters exactly, and
`estimateCostUsd tier 0 = 0`; an unknown tier uses the default (OTHER) rate
rather than failing. -/
theorem c6_estimate_cost_table :
    (∀ t r, PRICE_PER_1M_USD t = some r →
        estimateCostUsd t 1000000 = r ∧ estimateCostUsd t 0 = 0) ∧
    (∀ t c, PRICE_PER_1M_USD t = none →
        estimateCostUsd t c = estimateCostUsd "OTHER" c) := by
  have hother : PRICE_PER_1M_USD "OTHER" = some 16 := by decide
  constructor
  · intro t r h
    constructor
    · simp [estimateCostUsd, h]
    · simp [estimateCostUsd, h]
  · intro t c h
    simp [estimateCostUsd, h, hother]

/-- Witness for C6 at concrete tiers. -/
theorem c6_witness :
    estimateCostUsd "STANDARD" 1000000 = 4 ∧ estimateCostUsd "STANDARD" 0 = 0 ∧
    estimateCostUsd "UNKNOWN_TIER" 123 = estimateCostUsd "OTHER" 123 :=
  ⟨(c6_estimate_cost_table.1 "STANDARD" 4 (by decide)).1,
   (c6_estimate_cost_table.1 "STANDARD" 4 (by decide)).2,
   c6_estimate_cost_table.2 "UNKNOWN_TIER" 123 (by decide)⟩

/-- C3 counterexample: the claim as stated is false. A fetch at time 0 that
returns an empty voice list leaves the cache in state `{atMs := 0,
voices := []}` (first conjunct: that state is reachable, starting from the
initial cache). A `getVoices()` call at time 0 — strictly inside the TTL
window — nevertheless performs a remote voice-listing call (`fetched =
true`), contradicting "performs no remote voice-listing call". -/
theorem c3_counterexample :
    (listVoicesCached 3600 initialVoicesCache 0 (Except.ok (some []))).cache =
      { atMs := 0, voices := [] } ∧
    (0 : ℤ) - 0 < 3600 * 1000 ∧
    (listVoicesCached 3600 { atMs := 0, voices := [] } 0
        (Except.ok (some [{ name := "en-US-Standard-A", languageCodes := some ["en-US"],
                            ssmlGender := some "FEMALE",
                            naturalSampleRateHertz := some 24000 }]))).fetched = true := by
  decide

/-- C3 amended: for every state in which the voice directory cache was
fetched at time t with a NON-EMPTY resulting voice set, any `getVoices()`
call at time `now` with `now − t < TTL` returns the cached voice set,
performs no remote voice-listing call, and leaves the cache unchanged. -/
theorem c3_fresh_nonempty_cache_no_fetch (ttlSec atMs : ℤ) (voices : List Voice)
    (now : ℤ) (fetch : Except String (Option (List RawVoice)))
    (hne : voices ≠ []) (hfresh : now - atMs < ttlSec * 1000) :
    listVoicesCached ttlSec { atMs := atMs, voices := voices } now fetch =
      { result := Except.ok voices, cache := { atMs := atMs, voices := voices },
        fetched := false } := by
  have hlen : voices.length ≠ 0 := by
    rw [Ne, List.length_eq_zero]
    exact hne
  simp [listVoicesCached, hlen, hfresh]

/-- Witness for the amended C3 at a concrete fresh cache. -/
theorem c3_witness :
    listVoicesCached 3600 { atMs := 0, voices := [stdVoice] } 1 (Except.error "down") =
      { result := Except.ok [stdVoice], cache := { atMs := 0, voices := [stdVoice] },
        fetched := false } :=
  c3_fresh_nonempty_cache_no_fetch 3600 0 [stdVoice] 1 (Except.error "down")
    (by simp) (by decide)

/-- C4: if the cache is expired or absent and the remote voice-listing
fetch fails, `getVoices()` fails with the thrown error (the stale cached
voice set is not returned), the cache state is unchanged, and the
`GET /api/voices` route answers HTTP 500 with `{error, details}`. -/
theorem c4_fetch_failure_propagates (ttlSec : ℤ) (cache : VoicesCache) (now : ℤ)
    (e : String)
    (hexp : cache.voices = [] ∨ ttlSec * 1000 ≤ now - cache.atMs) :
    (listVoicesCached ttlSec cache now (Except.error e)).result = Except.error e ∧
    (listVoicesCached ttlSec cache now (Except.error e)).cache = cache ∧
    (apiVoicesHandler ttlSec cache now (Except.error e)).1.status = 500 ∧
    (apiVoicesHandler ttlSec cache now (Except.error e)).1.error =
      some "Failed to list voices" ∧
    (apiVoicesHandler ttlSec cache now (Except.error e)).1.details = some e := by
  have hcond : ¬(¬cache.voices = [] ∧ now - cache.atMs < ttlSec * 1000) := by
    rcases hexp with h | h
    · exact fun hc => hc.1 h
    · exact fun hc => absurd hc.2 (not_lt.mpr h)
  simp [listVoicesCached, apiVoicesHandler, hcond]

/-- Witness for C4: an expired non-empty cache plus a failing fetch. -/
theorem c4_witness :
    (listVoicesCached 3600 { atMs := 0, voices := [stdVoice] } 3600000
        (Except.error "UNAVAILABLE")).result = Except.error "UNAVAILABLE" ∧
    (listVoicesCached 3600 { atMs := 0, voices := [stdVoice] } 3600000
        (Except.error "UNAVAILABLE")).cache = { atMs := 0, voices := [stdVoice] } ∧
    (apiVoicesHandler 3600 { atMs := 0, voices := [stdVoice] } 3600000
        (Except.error "UNAVAILABLE")).1.status = 500 := by
  have h := c4_fetch_failure_propagates 3600 { atMs := 0, voices := [stdVoice] }
    3600000 "UNAVAILABLE" (Or.inr (by decide))
  exact ⟨h.1, h.2.1, h.2.2.1⟩

/-- C10: the cache-validity check also requires the cached voice list to be
non-empty: with an empty cached voice set, a `getVoices()` call performs a
remote fetch even when the fetch timestamp is younger than the TTL. -/
theorem c10_empty_cache_triggers_fetch (ttlSec atMs now : ℤ)
    (fetch : Except String (Option (List RawVoice)))
    (_hfresh : now - atMs < ttlSec * 1000) :
    (listVoicesCached ttlSec { atMs := atMs, voices := [] } now fetch).fetched = true := by
  cases fetch <;> simp [listVoicesCached]

/-- Witness for C10: an empty cache strictly inside the TTL window. -/
theorem c10_witness :
    (listVoicesCached 3600 { atMs := 0, voices := [] } 10
        (Except.error "down")).fetched = true :=
  c10_empty_cache_triggers_fetch 3600 0 10 (Except.error "down") (by decide)

/-- C1 counterexample: the claim as stated is false. A request that passes
validation and voice lookup (witnessed by `remoteRequest.isSome`, i.e. the
remote synthesis call was reached) whose remote call throws is answered
with HTTP 400 and the catch-all `{error: "Bad request", details}` body —
not with HTTP 500. -/
theorem c1_counterexample :
    (synthesizeHandler 3600 { atMs := 0, voices := [stdVoice] } 0 (Except.ok none)
        helloBody (Except.error "UNAVAILABLE")).status = 400 ∧
    (synthesizeHandler 3600 { atMs := 0, voices := [stdVoice] } 0 (Except.ok none)
        helloBody (Except.error "UNAVAILABLE")).body =
      SynthBody.failure "Bad request" (some "UNAVAILABLE") ∧
    (synthesizeHandler 3600 { atMs := 0, voices := [stdVoice] } 0 (Except.ok none)
        helloBody (Except.error "UNAVAILABLE")).remoteRequest.isSome = true ∧
    ¬(synthesizeHandler 3600 { atMs := 0, voices := [stdVoice] } 0 (Except.ok none)
        helloBody (Except.error "UNAVAILABLE")).status = 500 := by
  decide

/-- C1 amended: for every synthesis request that passes validation and
voice lookup, if the remote synthesis call throws, the handler responds
with HTTP 400 and the catch-all `{error: "Bad request", details}` body (the
same response class as validation failures), not with HTTP 500; the
remote request had been constructed and issued (`remoteRequest.isSome`). -/
theorem c1_remote_throw_is_400 (ttlSec : ℤ) (cache : VoicesCache) (now : ℤ)
    (voicesFetch : Except String (Option (List RawVoice))) (body : SynthesizeBody)
    (e : String) (parsed : SynthesizeParsed) (voices : List Voice) (voice : Voice)
    (hp : parseSynthesize body = Except.ok parsed)
    (hv : (listVoicesCached ttlSec cache now voicesFetch).result = Except.ok voices)
    (hfind : voices.find? (fun v => v.name == parsed.voiceName) = some voice) :
    (synthesizeHandler ttlSec cache now voicesFetch body (Except.error e)).status = 400 ∧
    (synthesizeHandler ttlSec cache now voicesFetch body (Except.error e)).body =
      SynthBody.failure "Bad request" (some e) ∧
    (synthesizeHandler ttlSec cache now voicesFetch body
        (Except.error e)).remoteRequest.isSome = true := by
  simp [synthesizeHandler, hp, hv, hfind]

/-- Witness for the amended C1 at a concrete request and failing remote. -/
theorem c1_witness :
    (synthesizeHandler 3600 { atMs := 0, voices := [stdVoice] } 0 (Except.ok none)
        helloBody (Except.error "boom")).status = 400 ∧
    (synthesizeHandler 3600 { atMs := 0, voices := [stdVoice] } 0 (Except.ok none)
        helloBody (Except.error "boom")).body =
      SynthBody.failure "Bad request" (some "boom") ∧
    (synthesizeHandler 3600 { atMs := 0, voices := [stdVoice] } 0 (Except.ok none)
        helloBody (Except.error "boom")).remoteRequest.isSome = true :=
  c1_remote_throw_is_400 3600 { atMs := 0, voices := [stdVoice] } 0 (Except.ok none)
    helloBody "boom" parsedHello [stdVoice] stdVoice rfl rfl (by decide)

/-- C2: a valid markup (ssml) request against a CHIRP_HD voice succeeds
(HTTP 200), the response carries one human-readable warning per downgraded
parameter, and the forwarded remote request carries the input as plain
text (not markup); speakingRate and pitch are absent from the forwarded
audio configuration, each with its own warning when it was supplied. -/
theorem c2_chirp_hd_ssml_downgrade (ttlSec : ℤ) (cache : VoicesCache) (now : ℤ)
    (voicesFetch : Except String (Option (List RawVoice))) (body : SynthesizeBody)
    (a : String) (parsed : SynthesizeParsed) (voices : List Voice) (voice : Voice)
    (o : SynthOutcome)
    (hp : parseSynthesize body = Except.ok parsed)
    (hssml : parsed.inputType = InputType.ssml)
    (hv : (listVoicesCached ttlSec cache now voicesFetch).result = Except.ok voices)
    (hfind : voices.find? (fun v => v.name == parsed.voiceName) = some voice)
    (hct : voice.voiceType = "CHIRP_HD")
    (ha : a ≠ "")
    (ho : o = synthesizeHandler ttlSec cache now voicesFetch body (Except.ok (some a))) :
    o.status = 200 ∧
    o.body.isSuccess = true ∧
    "Chirp 3: HD voices do not support SSML. Falling back to plain text."
      ∈ o.body.warningsOf ∧
    (parsed.speakingRate.isSome = true →
      "Chirp 3: HD voices do not support speakingRate. Ignoring." ∈ o.body.warningsOf) ∧
    (parsed.pitch.isSome = true →
      "Chirp 3: HD voices do not support pitch. Ignoring." ∈ o.body.warningsOf) ∧
    (o.remoteRequest.map fun r => r.inputIsSsml) = some false ∧
    (o.remoteRequest.map fun r => r.inputText) = some parsed.text ∧
    (o.remoteRequest.map fun r => r.speakingRate) = some none ∧
    (o.remoteRequest.map fun r => r.pitch) = some none := by
  subst ho
  cases hsr : parsed.speakingRate <;> cases hpi : parsed.pitch <;>
    simp [synthesizeHandler, hp, hv, hfind, hct, hssml, hsr, hpi, ha,
      SynthBody.isSuccess, SynthBody.warningsOf]

/-- Witness for C2 at a concrete markup request with prosody overrides. -/
theorem c2_witness :
    (synthesizeHandler 3600 { atMs := 0, voices := [chirpVoice] } 0 (Except.ok none)
        chirpBody (Except.ok (some "QUJD"))).status = 200 ∧
    "Chirp 3: HD voices do not support SSML. Falling back to plain text."
      ∈ (synthesizeHandler 3600 { atMs := 0, voices := [chirpVoice] } 0 (Except.ok none)
          chirpBody (Except.ok (some "QUJD"))).body.warningsOf ∧
    ((synthesizeHandler 3600 { atMs := 0, voices := [chirpVoice] } 0 (Except.ok none)
        chirpBody (Except.ok (some "QUJD"))).remoteRequest.map fun r => r.inputIsSsml) =
      some false := by
  have h := c2_chirp_hd_ssml_downgrade 3600 { atMs := 0, voices := [chirpVoice] } 0
    (Except.ok none) chirpBody "QUJD" parsedChirp [chirpVoice] chirpVoice
    (synthesizeHandler 3600 { atMs := 0, voices := [chirpVoice] } 0 (Except.ok none)
      chirpBody (Except.ok (some "QUJD")))
    (by norm_num [parseSynthesize, chirpBody]
        decide)
    rfl rfl (by decide) rfl (by decide) rfl
  exact ⟨h.1, h.2.2.1, h.2.2.2.2.2.1⟩

/-- C7: a synthesis request whose remote call succeeds but returns absent
or zero-length audio content is answered with HTTP 500 (`RemoteError`
class), and no response of the handler is ever a success carrying empty
audio. -/
theorem c7_empty_audio_is_error (ttlSec : ℤ) (cache : VoicesCache) (now : ℤ)
    (voicesFetch : Except String (Option (List RawVoice))) (body : SynthesizeBody)
    (audioOpt : Option String) (parsed : SynthesizeParsed) (voices : List Voice)
    (voice : Voice)
    (hp : parseSynthesize body = Except.ok parsed)
    (hv : (listVoicesCached ttlSec cache now voicesFetch).result = Except.ok voices)
    (hfind : voices.find? (fun v => v.name == parsed.voiceName) = some voice)
    (hempty : audioOpt.getD "" = "") :
    (synthesizeHandler ttlSec cache now voicesFetch body (Except.ok audioOpt)).status = 500 ∧
    (synthesizeHandler ttlSec cache now voicesFetch body (Except.ok audioOpt)).body =
      SynthBody.failure "No audioContent returned by Google TTS." none ∧
    (∀ (t' : ℤ) (c' : VoicesCache) (n' : ℤ)
        (vf' : Except String (Option (List RawVoice))) (b' : SynthesizeBody)
        (r' : Except String (Option String)) (p : SuccessPayload),
      (synthesizeHandler t' c' n' vf' b' r').body = SynthBody.success p →
      p.audioBase64 ≠ "") := by
  refine ⟨?_, ?_, ?_⟩
  · simp [synthesizeHandler, hp, hv, hfind, hempty]
  · simp [synthesizeHandler, hp, hv, hfind, hempty]
  · intro t' c' n' vf' b' r' p h
    unfold synthesizeHandler at h
    cases hpb : parseSynthesize b' with
    | error m => rw [hpb] at h; simp at h
    | ok parsed' =>
      rw [hpb] at h
      simp only at h
      cases hlv : (listVoicesCached t' c' n' vf').result with
      | error e => rw [hlv] at h; simp at h
      | ok voices' =>
        rw [hlv] at h
        simp only at h
        cases hf : voices'.find? (fun v => v.name == parsed'.voiceName) with
        | none => rw [hf] at h; simp at h
        | some voice' =>
          rw [hf] at h
          simp only at h
          cases r' with
          | error e => simp at h
          | ok ao =>
            by_cases hae : ao.getD "" = ""
            · simp [hae] at h
            · simp [hae] at h
              rw [← h]
              simpa using hae

/-- Witness for C7: a request whose remote call returns no audio. -/
theorem c7_witness :
    (synthesizeHandler 3600 { atMs := 0, voices := [stdVoice] } 0 (Except.ok none)
        helloBody (Except.ok none)).status = 500 ∧
    (synthesizeHandler 3600 { atMs := 0, voices := [stdVoice] } 0 (Except.ok none)
        helloBody (Except.ok none)).body =
      SynthBody.failure "No audioContent returned by Google TTS." none := by
  have h := c7_empty_audio_is_error 3600 { atMs := 0, voices := [stdVoice] } 0
    (Except.ok none) helloBody none parsedHello [stdVoice] stdVoice rfl rfl
    (by decide) rfl
  exact ⟨h.1, h.2.1⟩

/-- C8: a synthesis request naming a voice identifier absent from the
current voice directory is answered with HTTP 400 (`InvalidRequest` class)
and the remote synthesis operation is never invoked. -/
theorem c8_unknown_voice_never_reaches_remote (ttlSec : ℤ) (cache : VoicesCache)
    (now : ℤ) (voicesFetch : Except String (Option (List RawVoice)))
    (body : SynthesizeBody) (remote : Except String (Option String))
    (parsed : SynthesizeParsed) (voices : List Voice)
    (hp : parseSynthesize body = Except.ok parsed)
    (hv : (listVoicesCached ttlSec cache now voicesFetch).result = Except.ok voices)
    (habs : ∀ v ∈ voices, v.name ≠ parsed.voiceName) :
    (synthesizeHandler ttlSec cache now voicesFetch body remote).status = 400 ∧
    (synthesizeHandler ttlSec cache now voicesFetch body remote).body =
      SynthBody.failure
        "Unknown voiceName. Fetch /api/voices and pick one from the list." none ∧
    (synthesizeHandler ttlSec cache now voicesFetch body remote).remoteRequest = none := by
  have hfind : voices.find? (fun v => v.name == parsed.voiceName) = none := by
    rw [List.find?_eq_none]
    intro v hvmem
    simpa using habs v hvmem
  simp [synthesizeHandler, hp, hv, hfind]

/-- Witness for C8: a directory holding only `en-US-Standard-A` and a
request naming `en-US-Neural2-A`. -/
theorem c8_witness :
    (synthesizeHandler 3600 { atMs := 0, voices := [stdVoice] } 0 (Except.ok none)
        unknownVoiceBody (Except.ok (some "QUJD"))).status = 400 ∧
    (synthesizeHandler 3600 { atMs := 0, voices := [stdVoice] } 0 (Except.ok none)
        unknownVoiceBody (Except.ok (some "QUJD"))).body =
      SynthBody.failure
        "Unknown voiceName. Fetch /api/voices and pick one from the list." none ∧
    (synthesizeHandler 3600 { atMs := 0, voices := [stdVoice] } 0 (Except.ok none)
        unknownVoiceBody (Except.ok (some "QUJD"))).remoteRequest = none := by
  have h := c8_unknown_voice_never_reaches_remote 3600 { atMs := 0, voices := [stdVoice] }
    0 (Except.ok none) unknownVoiceBody (Except.ok (some "QUJD"))
    { inputType := InputType.text, text := "Hello", voiceName := "en-US-Neural2-A",
      languageCode := none, audioEncoding := AudioEncoding.MP3, speakingRate := none,
      pitch := none, volumeGainDb := none }
    [stdVoice] rfl rfl (by decide)
  exact h

/-- Helper: the full success response of the synthesize handler for a voice
whose tier is not CHIRP_HD (so no parameter is downgraded). -/
theorem synthesizeHandler_success_of_not_chirp (ttlSec : ℤ) (cache : VoicesCache)
    (now : ℤ) (voicesFetch : Except String (Option (List RawVoice)))
    (body : SynthesizeBody) (a : String) (parsed : SynthesizeParsed)
    (voices : List Voice) (voice : Voice)
    (hp : parseSynthesize body = Except.ok parsed)
    (hv : (listVoicesCached ttlSec cache now voicesFetch).result = Except.ok voices)
    (hfind : voices.find? (fun v => v.name == parsed.voiceName) = some voice)
    (hct : ¬voice.voiceType = "CHIRP_HD")
    (ha : ¬a = "") :
    synthesizeHandler ttlSec cache now voicesFetch body (Except.ok (some a)) =
      { status := 200,
        body := SynthBody.success
          { audioBase64 := a, mimeType := mimeTypeFor parsed.audioEncoding,
            encoding := parsed.audioEncoding, voiceName := voice.name,
            charCount := parsed.text.length, inputType := parsed.inputType,
            estimatedCostUsd := estimateCostUsd voice.voiceType parsed.text.length,
            per1MCharactersUsd :=
              (PRICE_PER_1M_USD voice.voiceType).getD ((PRICE_PER_1M_USD "OTHER").getD 0),
            warnings := [] },
        remoteRequest := some
          { inputIsSsml := parsed.inputType = InputType.ssml, inputText := parsed.text,
            voiceName := parsed.voiceName,
            languageCode :=
              match parsed.languageCode with
              | some s => if s = "" then voice.languageCodes.head? else some s
              | none => voice.languageCodes.head?,
            audioEncoding := parsed.audioEncoding, speakingRate := parsed.speakingRate,
            pitch := parsed.pitch, volumeGainDb := parsed.volumeGainDb },
        voicesFetched := (listVoicesCached ttlSec cache now voicesFetch).fetched } := by
  simp [synthesizeHandler, hp, hv, hfind, hct, ha]

/-- C9: the end-to-end scenario `{inputType:"text", text:"Hello",
voiceName:"en-US-Standard-A", audioEncoding:"MP3"}` against a directory
containing that voice with tier STANDARD (rate 4 USD per million) yields a
success whose `estimatedCostUsd` equals `(4/1,000,000)*5` and whose MIME
type is `audio/mpeg`; the billed character count is the raw input's length,
including markup tags in the ssml case (second scenario). -/
theorem c9_end_to_end :
    (∃ p, (synthesizeHandler 3600 { atMs := 0, voices := [stdVoice] } 0 (Except.ok none)
        helloBody (Except.ok (some "QUJD"))).body = SynthBody.success p ∧
      p.estimatedCostUsd = 4 / 1000000 * 5 ∧
      p.mimeType = "audio/mpeg" ∧
      p.charCount = "Hello".length) ∧
    (∃ p, (synthesizeHandler 3600 { atMs := 0, voices := [wavenetVoice] } 0 (Except.ok none)
        markupBody (Except.ok (some "QUJD"))).body = SynthBody.success p ∧
      p.charCount = "<speak>Hi</speak>".length ∧
      p.inputType = InputType.ssml) := by
  constructor
  · have h := synthesizeHandler_success_of_not_chirp 3600 { atMs := 0, voices := [stdVoice] }
      0 (Except.ok none) helloBody "QUJD" parsedHello [stdVoice] stdVoice rfl rfl
      (by decide) (by decide) (by decide)
    rw [h]
    refine ⟨_, rfl, ?_, rfl, rfl⟩
    norm_num [estimateCostUsd, PRICE_PER_1M_USD, stdVoice, parsedHello,
      show ("Hello".length = 5) from rfl]
  · have h := synthesizeHandler_success_of_not_chirp 3600
      { atMs := 0, voices := [wavenetVoice] } 0 (Except.ok none) markupBody "QUJD"
      parsedMarkup [wavenetVoice] wavenetVoice rfl rfl (by decide) (by decide) (by decide)
    rw [h]
    exact ⟨_, rfl, rfl, rfl⟩

end TtsGoogle
